import Mathlib

/-!
Verification of the DER-to-text decoder (package `der`, file `der.go`).

The embedding models the decoder as pure functions over `List Nat` byte
buffers.  Go's `int`/`int64` arithmetic (64-bit, two's-complement wraparound)
is modelled by `toInt64`; Go bit-mask operations on bytes are written as the
exactly equivalent arithmetic forms (`b & 0x1F = b % 32`,
`b & 0x7F = b % 128`, `b & 0x20 ≠ 0 ↔ b / 32 % 2 = 1`,
`b & 0xC0 = 64 * (b / 64 % 4)`, `b & 0x80 ≠ 0 ↔ b / 128 % 2 = 1`,
and `b ^ 0x80 = b - 128` whenever bit 7 of `b` is set); the equivalences
hold for every natural number, not only for bytes.

The output sink (`indenter.Indenter`) is modelled by a list of emitted
events, each tagged with the indentation depth at which it was produced;
`NextLevel` is depth + 1.  Consecutive prints belonging to one handler are
merged into a single `text` event.  The out-of-scope collaborators
(`hinter.PrintHint`, `oids.Name`) are recorded as opaque `hint` / `oidName`
events carrying exactly the data the decoder hands them.

A Go runtime panic (out-of-range slice index) is a distinct observable
outcome, modelled by `GoResult.panic`; unlike a returned `error`, a panic
propagates through a caller even when that caller ignores the returned
`error` value.

Error-message literals are reproduced from the source except that the
apostrophes are omitted (`Cant`, `doesnt`).
-/

set_option linter.unusedVariables false
set_option linter.unreachableTactic false
set_option linter.unusedTactic false
set_option maxRecDepth 10000

/-- Outcome of a Go function that returns `(..., error)` and may also panic. -/
inductive GoResult (α : Type) where
  | ok (a : α) : GoResult α
  | err (msg : String) : GoResult α
  | panic : GoResult α
  deriving DecidableEq, Repr

/-- One emission to the output sink, tagged with the indentation depth.
`hint` records the call `hinter.PrintHint(out, content)` and `oidName`
records the lookup `oids.Name(oid)` together with the conditional comment
line printed from its result; both collaborators are out of scope. -/
inductive OutEvent where
  | text (depth : Nat) (s : String) : OutEvent
  | hint (depth : Nat) (content : List Nat) : OutEvent
  | oidName (depth : Nat) (oid : String) : OutEvent
  deriving DecidableEq, Repr

abbrev Output := List OutEvent

/-- Reduce an unbounded integer to Go's 64-bit two's-complement `int`. -/
def toInt64 (n : Int) : Int := (n + 2 ^ 63) % 2 ^ 64 - 2 ^ 63

/-- Uppercase hex digit, for Go's `%02X`. -/
def hexDigitU (n : Nat) : Char := if n < 10 then Char.ofNat (48 + n) else Char.ofNat (55 + n)

/-- Lowercase hex digit, for Go's `%02x`. -/
def hexDigitL (n : Nat) : Char := if n < 10 then Char.ofNat (48 + n) else Char.ofNat (87 + n)

/-- Go `fmt.Sprintf("%02X", b)` for a byte. -/
def byteHex (b : Nat) : String := String.mk [hexDigitU (b / 16 % 16), hexDigitU (b % 16)]

/-- Go `fmt.Sprintf("%02x", b)` for a byte. -/
def byteHexL (b : Nat) : String := String.mk [hexDigitL (b / 16 % 16), hexDigitL (b % 16)]

/-- `printOctets`: a colon followed by each content byte as two uppercase
hex digits (the text it sends to the sink). -/
def printOctets (content : List Nat) : String :=
  ":" ++ String.join (content.map byteHex)

/-- One byte as emitted by `printString`: `\n` and `\r` are escaped to
two-character sequences, every other byte is written as-is. -/
def escapeByte (v : Nat) : String :=
  if v = 10 then "\\n" else if v = 13 then "\\r" else String.mk [Char.ofNat v]

/-- `printString`: the text it sends to the sink. -/
def printString (content : List Nat) : String :=
  String.join (content.map escapeByte)

/-- A byte slice interpreted as text, for Go's `%s` on a `[]byte`. -/
def bytesToString (l : List Nat) : String := String.mk (l.map Char.ofNat)

/-- Go slice expression `l[a:b]`. -/
def goSlice (l : List Nat) (a b : Nat) : List Nat := (l.drop a).take (b - a)

/-- The class label printed from the top two bits of the identifier byte
(the source's `switch typeClass`). -/
def classLabel (depth : Nat) (typeByte : Nat) : OutEvent :=
  if typeByte / 64 % 4 = 0 then .text depth "UNIVERSAL "
  else if typeByte / 64 % 4 = 1 then .text depth "APPLICATION "
  else if typeByte / 64 % 4 = 2 then .text depth "CONTEXT-SPECIFIC "
  else .text depth "PRIVATE "

/-- The primitive/composed label printed from bit 5 of the identifier byte
(the source's `switch typeComposed`). -/
def pcLabel (depth : Nat) (typeByte : Nat) : OutEvent :=
  if typeByte / 32 % 2 = 0 then .text depth "PRIMITIVE " else .text depth "COMPOSED "

/-- `handleData`: label, colon-separated uppercase hex dump, newline, then
the call into the hint collaborator. -/
def handleData (label : String) (depth : Nat) (content : List Nat) : Output :=
  [.text depth (label ++ " " ++ printOctets content ++ "\n"), .hint depth content]

/-- `handleString`: label then the escaped literal text. -/
def handleString (label : String) (depth : Nat) (content : List Nat) : Output :=
  [.text depth (label ++ " " ++ printString content ++ "\n")]

/-- `handleInteger`: decimal form for 1–7 content bytes with a clear sign
bit, hex dump for length 0, length > 8 or a set sign bit; the two
conditions are exactly the source's `if` / `else if`, which leave the case
`length == 8` with a clear sign bit emitting nothing.  (With at most 7
bytes the accumulated value is below 2^56, so Go's `int64` accumulation is
exact and is modelled by the `Nat` fold.) -/
def handleInteger (label : String) (depth : Nat) (content : List Nat) : Output :=
  if content.length > 0 ∧ content.length < 8 ∧ content.headD 0 / 128 % 2 = 0 then
    [.text depth (label ++ " " ++
      toString (content.foldl (fun value v => value * 256 + v) 0) ++ "\n")]
  else if content.length > 8 ∨ content.length = 0 ∨ content.headD 0 / 128 % 2 ≠ 0 then
    handleData label depth content
  else
    []

/-- The arc-accumulation loop shared by the OBJECT IDENTIFIER and RELATIVE
OID cases: `build` is multiplied by 128 and the low 7 bits of the byte are
added (in Go `int` arithmetic); when the byte's top bit is clear the arc is
appended as `"." ++ decimal` and `build` resets to 0. -/
def oidFold (bytes : List Nat) (oid : String) (build : Int) : String :=
  match bytes with
  | [] => oid
  | v :: rest =>
    let b := toInt64 (toInt64 (build * 128) + (v % 128 : Nat))
    if v / 128 % 2 = 0 then oidFold rest (oid ++ "." ++ toString b) 0
    else oidFold rest oid b

/-- The long-form length accumulation loop: `length = length*256 + byte`,
`numToRead` times, in Go `int` arithmetic. -/
def lenAcc (bytes : List Nat) (length : Int) : Int :=
  match bytes with
  | [] => length
  | b :: rest => lenAcc rest (toInt64 (toInt64 (length * 256) + b))

/-- `decodeLength`: short form (high bit clear) is the byte itself, one
byte consumed; long form reads `numToRead = firstByte ^ 0x80` further
bytes as a big-endian accumulation and fails when fewer are available.
Reading `data[0]` of an empty slice would be a Go panic (`decodeLength` is
only ever called with at least one byte). -/
def decodeLength (data : List Nat) : GoResult (Int × List Nat) :=
  match data with
  | [] => .panic
  | firstByte :: tail =>
    if firstByte / 128 % 2 = 1 then
      let numToRead := firstByte - 128
      if tail.length < numToRead then
        .err ("Cant satisfy request to read " ++ toString numToRead ++
          " bytes to get length")
      else
        .ok (lenAcc (tail.take numToRead) 0, tail.drop numToRead)
    else
      .ok ((firstByte : Int), tail)

/-- Modelled from the spec: the external UTF-16 big-endian decoder used for
BMPSTRING content (`golang.org/x/text`, not part of this repository):
content is a UTF-16BE byte sequence decoded to UTF-8, and a decoding
failure propagates as a decode error.  Bytes are paired big-endian into
16-bit units (an odd trailing byte fails), surrogate pairs are combined
(an unpaired surrogate fails), and the scalars are re-encoded as UTF-8. -/
def utf16Units : List Nat → Option (List Nat)
  | [] => some []
  | hi :: lo :: rest => (utf16Units rest).map (fun us => (hi * 256 + lo) :: us)
  | [_] => none

/-- Surrogate-pair combination for the modelled UTF-16 decoder. -/
def combineSurrogates : List Nat → Option (List Nat)
  | [] => some []
  | [u] => if u < 0xD800 ∨ 0xE000 ≤ u then some [u] else none
  | u :: lo :: rest =>
    if u < 0xD800 ∨ 0xE000 ≤ u then
      (combineSurrogates (lo :: rest)).map (fun cs => u :: cs)
    else if u < 0xDC00 then
      if 0xDC00 ≤ lo ∧ lo < 0xE000 then
        (combineSurrogates rest).map
          (fun cs => (0x10000 + (u - 0xD800) * 1024 + (lo - 0xDC00)) :: cs)
      else none
    else none

/-- UTF-8 encoding of one Unicode scalar value. -/
def utf8Encode (c : Nat) : List Nat :=
  if c < 0x80 then [c]
  else if c < 0x800 then [0xC0 + c / 64, 0x80 + c % 64]
  else if c < 0x10000 then [0xE0 + c / 4096, 0x80 + c / 64 % 64, 0x80 + c % 64]
  else [0xF0 + c / 262144, 0x80 + c / 4096 % 64, 0x80 + c / 64 % 64, 0x80 + c % 64]

/-- Modelled from the spec: `utf16ToUtf8` (see `utf16Units`). -/
def utf16ToUtf8 (input : List Nat) : GoResult (List Nat) :=
  match utf16Units input with
  | none => .err "utf16 conversion failed"
  | some us =>
    match combineSurrogates us with
    | none => .err "utf16 conversion failed"
    | some cs => .ok ((cs.map utf8Encode).flatten)

/-- Modelled from the spec: the external UTF-32 big-endian decoder used for
UNIVERSALSTRING content (`golang.org/x/text`, not part of this repository):
groups of four bytes big-endian, failing on a ragged tail or a value that
is not a Unicode scalar. -/
def utf32Units : List Nat → Option (List Nat)
  | [] => some []
  | a :: b :: c :: d :: rest =>
    (utf32Units rest).map (fun us => (((a * 256 + b) * 256 + c) * 256 + d) :: us)
  | _ => none

/-- Modelled from the spec: `utf32ToUtf8` (see `utf32Units`). -/
def utf32ToUtf8 (input : List Nat) : GoResult (List Nat) :=
  match utf32Units input with
  | none => .err "utf32 conversion failed"
  | some cs =>
    if cs.all (fun c => decide (c < 0x110000 ∧ (c < 0xD800 ∨ 0xE000 ≤ c))) then
      .ok ((cs.map utf8Encode).flatten)
    else .err "utf32 conversion failed"

mutual

/-- The per-type dispatch of `parseElement`: the source's `switch typeByte`
over the full identifier byte (class bits, constructed bit and tag
together), acting on the sliced-off `content`.  It produces the emitted
output and either success, a structural error, or a panic.  In the
COMPOSED SET / SEQUENCE cases the source discards the `error` returned by
the recursive `Parse` call; a panic inside the recursion still unwinds. -/
def interpretContent (depth : Nat) (typeByte : Nat) (content : List Nat) :
    Output × GoResult Unit :=
  match typeByte with
  | 0x00 =>
    if content.length ≠ 0 then
      ([], .err ("End-of-content had unexpected length " ++ toString content.length))
    else ([.text depth "END-OF-CONTENT\n"], .ok ())
  | 0x01 =>
    if content.length ≠ 1 then
      ([], .err ("Boolean had unexpected length " ++ toString content.length))
    else if content.headD 0 = 0 then ([.text depth "BOOLEAN FALSE\n"], .ok ())
    else ([.text depth "BOOLEAN TRUE\n"], .ok ())
  | 0x02 => (handleInteger "INTEGER" depth content, .ok ())
  | 0x03 =>
    if content.length < 1 then ([], .err "BitString had no padding byte")
    else
      let padding := content.headD 0
      -- the source also tests `padding < 0`, vacuous for a byte-valued Nat
      if padding > 7 then
        ([], .err ("BitString padding has illegal value " ++ toString padding))
      else
        ([.text depth ("BITSTRING PAD=" ++ toString padding ++ " " ++
          printOctets (content.drop 1) ++ "\n")], .ok ())
  | 0x04 => (handleData "OCTETSTRING" depth content, .ok ())
  | 0x05 =>
    if content.length ≠ 0 then ([], .err "Null has non-zero content")
    else ([.text depth "NULL\n"], .ok ())
  | 0x06 =>
    if content.length < 1 then ([], .err "OID doesnt have content")
    else
      let c0 := content.headD 0
      let oid := oidFold (content.drop 1)
        (toString (c0 / 40) ++ "." ++ toString (c0 % 40)) 0
      ([.text depth ("OID " ++ oid ++ "\n"), .oidName depth oid], .ok ())
  | 0x07 => (handleData "OBJECTDESCRIPTION" depth content, .ok ())
  | 0x28 => (handleData "EXTERNAL" depth content, .ok ())
  | 0x09 => (handleData "REAL" depth content, .ok ())
  | 0x0A => (handleInteger "ENUMERATED" depth content, .ok ())
  | 0x2B => (handleData "EMBEDDED-PDV" depth content, .ok ())
  | 0x0C => (handleString "UTF8STRING" depth content, .ok ())
  | 0x0D =>
    if content.length < 1 then ([], .err "Relative OID doesnt have content")
    else
      let oid := oidFold content "" 0
      if oid.isEmpty then ([], .panic)
      else
        ([.text depth ("RELATIVEOID " ++ oid.drop 1 ++ "\n"),
          .oidName depth (oid.drop 1)], .ok ())
  | 0x12 => (handleString "NUMERICSTRING" depth content, .ok ())
  | 0x13 => (handleString "PRINTABLESTRING" depth content, .ok ())
  | 0x31 =>
    let pr := Parse (depth + 1) content
    ([.text depth "SET\n"] ++ pr.1,
      match pr.2 with
      | .panic => .panic
      | _ => .ok ())
  | 0x30 =>
    let pr := Parse (depth + 1) content
    ([.text depth "SEQUENCE\n"] ++ pr.1,
      match pr.2 with
      | .panic => .panic
      | _ => .ok ())
  | 0x14 => (handleData "T61STRING" depth content, .ok ())
  | 0x15 => (handleData "VIDEOTEXSTRING" depth content, .ok ())
  | 0x16 => (handleString "IA5STRING" depth content, .ok ())
  | 0x17 =>
    (handleData "UTCTIME" depth content ++
      (if content.length = 13 ∧ content.getD 12 0 = 90 then
        [.text depth ("# 20" ++ bytesToString (goSlice content 0 2) ++ "-" ++
          bytesToString (goSlice content 2 4) ++ "-" ++
          bytesToString (goSlice content 4 6) ++ " " ++
          bytesToString (goSlice content 6 8) ++ ":" ++
          bytesToString (goSlice content 8 10) ++ ":" ++
          bytesToString (goSlice content 10 12) ++ " GMT\n")]
      else if content.length = 11 ∧ content.getD 10 0 = 90 then
        [.text depth ("# 20" ++ bytesToString (goSlice content 0 2) ++ "-" ++
          bytesToString (goSlice content 2 4) ++ "-" ++
          bytesToString (goSlice content 4 6) ++ " " ++
          bytesToString (goSlice content 6 8) ++ ":" ++
          bytesToString (goSlice content 8 10) ++ ":00 GMT\n")]
      else []), .ok ())
  | 0x18 => (handleString "GENERALIZEDTIME" depth content, .ok ())
  | 0x19 => (handleData "GRAPHICSTRING" depth content, .ok ())
  | 0x1A => (handleString "VISIBLESTRING" depth content, .ok ())
  | 0x1B => (handleData "GENERALSTRING" depth content, .ok ())
  | 0x1C =>
    match utf32ToUtf8 content with
    | .err e => ([], .err e)
    | .panic => ([], .panic)
    | .ok b => (handleString "UNIVERSALSTRING" depth b, .ok ())
  | 0x1D => (handleData "CHARACTERSTRING" depth content, .ok ())
  | 0x1E =>
    match utf16ToUtf8 content with
    | .err e => ([], .err e)
    | .panic => ([], .panic)
    | .ok b => (handleString "BMPSTRING" depth b, .ok ())
  | _ =>
    (handleData ("UNHANDLED-TAG=" ++ byteHexL (typeByte % 32)) depth content, .ok ())
termination_by 3 * content.length + 2

/-- `parseElement`: one TLV element.  Requires two bytes, rejects the
long-form tag escape 0x1F, prints the class and composed/primitive labels,
decodes the length, checks content availability (a negative wrapped length
passes that check and then panics on the slice `rest[:contentLen]`),
slices content from rest, and dispatches.  The guard
`rest1.length < data.length` always holds (`decodeLength` consumes at
least one byte, see `decodeLength_rest_length`); it makes the recursion
well-founded. -/
def parseElement (depth : Nat) (data : List Nat) : Output × GoResult (List Nat) :=
  if data.length < 2 then
    ([], .err ("short DER read, need at least two bytes, got " ++ toString data.length))
  else
    let typeByte := data.headD 0
    if typeByte % 32 = 0x1F then
      ([], .err "Long form DER types not implemented")
    else
      let pfx : Output := [classLabel depth typeByte, pcLabel depth typeByte]
      match decodeLength (data.drop 1) with
      | .panic => (pfx, .panic)
      | .err e => (pfx, .err e)
      | .ok (contentLen, rest1) =>
        if (rest1.length : Int) < contentLen then
          (pfx, .err ("Short content, need " ++ toString contentLen ++
            " bytes but have " ++ toString rest1.length))
        else if contentLen < 0 then (pfx, .panic)
        else if hr1 : rest1.length < data.length then
          let pr := interpretContent depth typeByte (rest1.take contentLen.toNat)
          (pfx ++ pr.1,
            match pr.2 with
            | .ok _ => .ok (rest1.drop contentLen.toNat)
            | .err e => .err e
            | .panic => .panic)
        else (pfx, .panic)
termination_by 3 * data.length

/-- `Parse`: decode elements until the buffer is empty, stopping at the
first error (or panic).  The guard `rest.length < data.length` always
holds for a successful `parseElement` (see `parseElement_ok_shrinks`); it
makes the loop well-founded. -/
def Parse (depth : Nat) (data : List Nat) : Output × GoResult Unit :=
  if data.isEmpty then ([], .ok ())
  else
    match parseElement depth data with
    | (o, .err e) => (o, .err e)
    | (o, .panic) => (o, .panic)
    | (o, .ok rest) =>
      if hlt : rest.length < data.length then
        let pr := Parse depth rest
        (o ++ pr.1, pr.2)
      else (o, .ok ())
termination_by 3 * data.length + 1

end

/-- The length decoder leaves a strict suffix of its input. -/
theorem decodeLength_rest_suffix {l : List Nat} {n : Int} {r : List Nat}
    (h : decodeLength l = .ok (n, r)) : r.IsSuffix l ∧ r.length < l.length := by
  match l with
  | [] => simp [decodeLength] at h
  | b :: tail =>
    simp only [decodeLength] at h
    split at h
    · split at h
      · exact absurd h (by simp)
      · simp only [GoResult.ok.injEq, Prod.mk.injEq] at h
        obtain ⟨-, h2⟩ := h
        subst h2
        constructor
        · exact (List.drop_suffix _ _).trans (List.suffix_cons b tail)
        · simp only [List.length_drop, List.length_cons]
          omega
    · simp only [GoResult.ok.injEq, Prod.mk.injEq] at h
      obtain ⟨-, h2⟩ := h
      subst h2
      exact ⟨List.suffix_cons b tail, by simp⟩

/-- A successful `parseElement` returns a strictly shorter suffix of its
input buffer. -/
theorem parseElement_ok_shrinks {depth : Nat} {data : List Nat} {o : Output}
    {rest : List Nat} (h : parseElement depth data = (o, .ok rest)) :
    rest.IsSuffix data ∧ rest.length < data.length := by
  rcases hdl : decodeLength (data.drop 1) with ⟨contentLen, rest1⟩ | e | _
  · rcases hpr : (interpretContent depth (data.headD 0)
        (rest1.take contentLen.toNat)).2 with ⟨⟩ | e | _
    · rw [parseElement.eq_def] at h
      simp only [hdl, hpr] at h
      split_ifs at h with hlen htag hshort hneg hr1 <;>
        simp only [Prod.mk.injEq, reduceCtorEq, and_false, GoResult.ok.injEq] at h
      obtain ⟨-, h2⟩ := h
      subst h2
      refine ⟨?_, ?_⟩
      · exact (List.drop_suffix _ _).trans
          ((decodeLength_rest_suffix hdl).1.trans (List.drop_suffix 1 data))
      · simp only [List.length_drop]
        omega
    · rw [parseElement.eq_def] at h
      simp only [hdl, hpr] at h
      split_ifs at h <;>
        simp only [Prod.mk.injEq, reduceCtorEq, and_false] at h
    · rw [parseElement.eq_def] at h
      simp only [hdl, hpr] at h
      split_ifs at h <;>
        simp only [Prod.mk.injEq, reduceCtorEq, and_false] at h
  · rw [parseElement.eq_def] at h
    simp only [hdl] at h
    split_ifs at h <;>
      simp only [Prod.mk.injEq, reduceCtorEq, and_false] at h
  · rw [parseElement.eq_def] at h
    simp only [hdl] at h
    split_ifs at h <;>
      simp only [Prod.mk.injEq, reduceCtorEq, and_false] at h

theorem Parse_nil (depth : Nat) : Parse depth [] = ([], .ok ()) := by
  rw [Parse.eq_def]; rfl

theorem Parse_err {depth : Nat} {data : List Nat} {o : Output} {e : String}
    (hne : data ≠ []) (h : parseElement depth data = (o, .err e)) :
    Parse depth data = (o, .err e) := by
  rw [Parse.eq_def, h]
  simp [hne]

theorem Parse_panic {depth : Nat} {data : List Nat} {o : Output}
    (hne : data ≠ []) (h : parseElement depth data = (o, .panic)) :
    Parse depth data = (o, .panic) := by
  rw [Parse.eq_def, h]
  simp [hne]

theorem Parse_ok {depth : Nat} {data : List Nat} {o : Output} {rest : List Nat}
    (h : parseElement depth data = (o, .ok rest)) :
    Parse depth data = (o ++ (Parse depth rest).1, (Parse depth rest).2) := by
  have hne : data ≠ [] := by
    intro he
    subst he
    rw [parseElement.eq_def] at h
    simp at h
  rw [Parse.eq_def, h]
  simp [hne, (parseElement_ok_shrinks h).2]

/-- `toInt64` is the identity on the `int64` range. -/
theorem toInt64_eq_self {n : Int} (h1 : -(2 ^ 63) ≤ n) (h2 : n < 2 ^ 63) :
    toInt64 n = n := by
  unfold toInt64
  omega

theorem toInt64_emod (n : Int) : toInt64 n % 2 ^ 64 = n % 2 ^ 64 := by
  unfold toInt64
  omega

theorem toInt64_range (n : Int) : -(2 ^ 63) ≤ toInt64 n ∧ toInt64 n < 2 ^ 63 := by
  unfold toInt64
  omega

theorem toInt64_congr {m n : Int} (h : m % 2 ^ 64 = n % 2 ^ 64) :
    toInt64 m = toInt64 n := by
  unfold toInt64
  omega

/-- The big-endian unsigned integer formed from a list of bytes (the
specification's description of the long-form length value). -/
def bigEndianVal (bytes : List Nat) : Nat :=
  bytes.foldl (fun acc b => acc * 256 + b) 0

/-- One step of the exact (unbounded) big-endian accumulation, over `Int`. -/
def beStep (x : Int) (v : Nat) : Int := x * 256 + v

theorem foldl_toInt64_congr (l : List Nat) :
    ∀ {a b : Int}, a % 2 ^ 64 = b % 2 ^ 64 →
      toInt64 (l.foldl beStep a) = toInt64 (l.foldl beStep b) := by
  induction l with
  | nil => exact fun h => toInt64_congr h
  | cons v rest ih =>
    intro a b h
    simp only [List.foldl_cons]
    refine ih ?_
    simp only [beStep]
    omega

theorem lenAcc_eq (l : List Nat) :
    ∀ {acc : Int}, toInt64 acc = acc →
      lenAcc l acc = toInt64 (l.foldl beStep acc) := by
  induction l with
  | nil => intro acc h; simpa [lenAcc] using h.symm
  | cons v rest ih =>
    intro acc h
    simp only [lenAcc, List.foldl_cons]
    have hidem : toInt64 (toInt64 (toInt64 (acc * 256) + (v : Int))) =
        toInt64 (toInt64 (acc * 256) + (v : Int)) :=
      toInt64_eq_self (toInt64_range _).1 (toInt64_range _).2
    rw [ih hidem]
    refine foldl_toInt64_congr rest ?_
    have h1 := toInt64_emod (toInt64 (acc * 256) + (v : Int))
    have h2 := toInt64_emod (acc * 256)
    simp only [beStep]
    omega

theorem bigEndianVal_cast (l : List Nat) :
    ∀ acc : Nat, l.foldl beStep (acc : Int) =
      ((l.foldl (fun acc b => acc * 256 + b) acc : Nat) : Int) := by
  induction l with
  | nil => intro acc; simp
  | cons v rest ih =>
    intro acc
    simp only [List.foldl_cons]
    rw [show beStep (acc : Int) v = ((acc * 256 + v : Nat) : Int) by
      simp only [beStep]; push_cast; ring]
    exact ih _

/-- Concrete evaluation: a UNIVERSAL PRIMITIVE NULL with empty content. -/
theorem parseElement_null_example :
    parseElement 0 [0x05, 0x00] =
      ([.text 0 "UNIVERSAL ", .text 0 "PRIMITIVE ", .text 0 "NULL\n"], .ok []) := by
  rw [parseElement.eq_def]
  norm_num [decodeLength, interpretContent.eq_def, classLabel, pcLabel]

/-- C6: for every successful decode of one element, the returned remaining
buffer is a suffix of the input buffer and is strictly shorter than it, so
across a top-level `Parse` the total number of bytes consumed never
exceeds the input length and the loop over elements terminates. -/
theorem c6_parseElement_consumes {depth : Nat} {data : List Nat} {o : Output}
    {rest : List Nat} (h : parseElement depth data = (o, .ok rest)) :
    rest.IsSuffix data ∧ rest.length < data.length :=
  parseElement_ok_shrinks h

theorem c6_parseElement_consumes_witness :
    ([] : List Nat).IsSuffix [0x05, 0x00] ∧
      ([] : List Nat).length < ([0x05, 0x00] : List Nat).length :=
  c6_parseElement_consumes parseElement_null_example

/-- C9: decoding is a pure function of the input byte buffer: identical
input byte sequences always produce identical output events and the
identical success/error result; there is no other state a `Parse`
invocation can read. -/
theorem c9_parse_deterministic (depth : Nat) (data1 data2 : List Nat)
    (h : data1 = data2) :
    Parse depth data1 = Parse depth data2 ∧
      parseElement depth data1 = parseElement depth data2 := by
  subst h
  exact ⟨rfl, rfl⟩

theorem c9_parse_deterministic_witness :
    Parse 0 [0x02, 0x01, 0x05] = Parse 0 [0x02, 0x01, 0x05] ∧
      parseElement 0 [0x02, 0x01, 0x05] = parseElement 0 [0x02, 0x01, 0x05] :=
  c9_parse_deterministic 0 [0x02, 0x01, 0x05] [0x02, 0x01, 0x05] rfl

/-- C10: for every UNIVERSAL PRIMITIVE element with tag 0x05 (NULL),
decoding fails with an error if and only if the content length is nonzero,
and a zero-length NULL renders as the line `NULL` (after the class and
primitive/composed prefix tokens). -/
theorem c10_null_rendering (depth : Nat) (content : List Nat)
    (hlen : content.length < 128) :
    (content = [] →
      parseElement depth (0x05 :: content.length :: content) =
        ([.text depth "UNIVERSAL ", .text depth "PRIMITIVE ", .text depth "NULL\n"],
          .ok [])) ∧
    (content ≠ [] →
      parseElement depth (0x05 :: content.length :: content) =
        ([.text depth "UNIVERSAL ", .text depth "PRIMITIVE "],
          .err "Null has non-zero content")) := by
  constructor
  · intro he
    subst he
    rw [parseElement.eq_def]
    norm_num [decodeLength, interpretContent.eq_def, classLabel, pcLabel]
  · intro hne
    rw [parseElement.eq_def]
    have h128 : content.length / 128 % 2 = 0 := by omega
    norm_num [decodeLength, interpretContent.eq_def, classLabel, pcLabel, h128, hne]
    split_ifs <;> first | rfl | omega

theorem c10_null_rendering_witness :
    parseElement 0 [0x05, 0x00] =
      ([.text 0 "UNIVERSAL ", .text 0 "PRIMITIVE ", .text 0 "NULL\n"], .ok []) ∧
    parseElement 0 [0x05, 0x01, 0x07] =
      ([.text 0 "UNIVERSAL ", .text 0 "PRIMITIVE "], .err "Null has non-zero content") :=
  ⟨(c10_null_rendering 0 [] (by decide)).1 rfl,
    (c10_null_rendering 0 [0x07] (by decide)).2 (by decide)⟩

/-- C8: for every UTCTIME element, the content is always rendered as an
opaque hex dump (plus the hint-collaborator call), and additionally a
comment line `# 20YY-MM-DD HH:MM:SS GMT` is emitted exactly when the
content is 13 bytes long ending in `Z` (seconds taken from the content) or
11 bytes long ending in `Z` (seconds rendered as `:00`); for any other
length or final byte only the hex dump is produced and no comment. -/
theorem c8_utctime_rendering (depth : Nat) (content : List Nat)
    (hlen : content.length < 128) :
    parseElement depth (0x17 :: content.length :: content) =
      ([.text depth "UNIVERSAL ", .text depth "PRIMITIVE ",
        .text depth ("UTCTIME " ++ printOctets content ++ "\n"),
        .hint depth content] ++
        (if content.length = 13 ∧ content.getD 12 0 = 90 then
          [.text depth ("# 20" ++ bytesToString (goSlice content 0 2) ++ "-" ++
            bytesToString (goSlice content 2 4) ++ "-" ++
            bytesToString (goSlice content 4 6) ++ " " ++
            bytesToString (goSlice content 6 8) ++ ":" ++
            bytesToString (goSlice content 8 10) ++ ":" ++
            bytesToString (goSlice content 10 12) ++ " GMT\n")]
        else if content.length = 11 ∧ content.getD 10 0 = 90 then
          [.text depth ("# 20" ++ bytesToString (goSlice content 0 2) ++ "-" ++
            bytesToString (goSlice content 2 4) ++ "-" ++
            bytesToString (goSlice content 4 6) ++ " " ++
            bytesToString (goSlice content 6 8) ++ ":" ++
            bytesToString (goSlice content 8 10) ++ ":00 GMT\n")]
        else []),
        .ok []) := by
  rw [parseElement.eq_def]
  have h128 : content.length / 128 % 2 = 0 := by omega
  norm_num [decodeLength, interpretContent.eq_def, classLabel, pcLabel, h128,
    handleData, List.take_length, List.drop_length]
  split_ifs <;> first | rfl | omega

theorem c8_utctime_rendering_witness :
    parseElement 0 (0x17 :: 13 :: [57, 57, 49, 50, 51, 49, 50, 51, 53, 57, 53, 57, 90]) =
      ([.text 0 "UNIVERSAL ", .text 0 "PRIMITIVE ",
        .text 0 "UTCTIME :3939313233313233353935395A\n",
        .hint 0 [57, 57, 49, 50, 51, 49, 50, 51, 53, 57, 53, 57, 90],
        .text 0 "# 2099-12-31 23:59:59 GMT\n"], .ok []) := by
  have h := c8_utctime_rendering 0
    [57, 57, 49, 50, 51, 49, 50, 51, 53, 57, 53, 57, 90] (by decide)
  exact h

/-- C7: for every non-empty OBJECT IDENTIFIER content, the first two arcs
are `content[0]/40` and `content[0]%40` (they seed the dotted string) and
each subsequent arc is accumulated 7 bits per byte, terminating when a
byte's top bit is clear (`oidFold`); in particular the content bytes
`2A 86 48 86 F7 0D` decode to the dotted string `1.2.840.113549`; empty
OID content is an error. -/
theorem c7_oid_rendering (depth : Nat) :
    (∀ (c0 : Nat) (tail : List Nat), tail.length + 1 < 128 →
      parseElement depth (0x06 :: (tail.length + 1) :: c0 :: tail) =
        ([.text depth "UNIVERSAL ", .text depth "PRIMITIVE ",
          .text depth ("OID " ++
            oidFold tail (toString (c0 / 40) ++ "." ++ toString (c0 % 40)) 0 ++ "\n"),
          .oidName depth
            (oidFold tail (toString (c0 / 40) ++ "." ++ toString (c0 % 40)) 0)],
          .ok [])) ∧
    parseElement depth [0x06, 0x06, 0x2A, 0x86, 0x48, 0x86, 0xF7, 0x0D] =
      ([.text depth "UNIVERSAL ", .text depth "PRIMITIVE ",
        .text depth "OID 1.2.840.113549\n", .oidName depth "1.2.840.113549"],
        .ok []) ∧
    parseElement depth [0x06, 0x00] =
      ([.text depth "UNIVERSAL ", .text depth "PRIMITIVE "],
        .err "OID doesnt have content") := by
  refine ⟨?_, ?_, ?_⟩
  · intro c0 tail hlen
    rw [parseElement.eq_def]
    have h128 : (tail.length + 1) / 128 % 2 = 0 := by omega
    norm_num [decodeLength, interpretContent.eq_def, classLabel, pcLabel, h128,
      List.take_succ_cons, List.take_length, List.drop_length]
    split_ifs <;> first | rfl | omega
  · rw [parseElement.eq_def]
    norm_num [decodeLength, interpretContent.eq_def, classLabel, pcLabel,
      oidFold, toInt64]
    decide
  · rw [parseElement.eq_def]
    norm_num [decodeLength, interpretContent.eq_def, classLabel, pcLabel]

theorem c7_oid_rendering_witness :
    parseElement 0 [0x06, 0x01, 0x2A] =
      ([.text 0 "UNIVERSAL ", .text 0 "PRIMITIVE ",
        .text 0 "OID 1.2\n", .oidName 0 "1.2"], .ok []) := by
  have h := (c7_oid_rendering 0).1 0x2A [] (by decide)
  exact h

/-- Concrete evaluation: a UNIVERSAL PRIMITIVE INTEGER with content 0x05. -/
theorem parseElement_integer_example :
    parseElement 1 [0x02, 0x01, 0x05] =
      ([.text 1 "UNIVERSAL ", .text 1 "PRIMITIVE ", .text 1 "INTEGER 5\n"], .ok []) := by
  rw [parseElement.eq_def]
  norm_num [decodeLength, interpretContent.eq_def, classLabel, pcLabel, handleInteger]
  decide

/-- C2 counterexample: the element `B0 03 02 01 05` has tag bits 0x10
(SEQUENCE) and the constructed bit set, but class CONTEXT-SPECIFIC; its
content `02 01 05` is a valid TLV stream (it decodes to `INTEGER 5` one
level deeper when parsed directly), yet the element is rendered as an
`UNHANDLED-TAG=10` hex dump and its content is not recursively decoded. -/
theorem c2_counterexample :
    (Parse 0 [0xB0, 0x03, 0x02, 0x01, 0x05]).1 =
      [.text 0 "CONTEXT-SPECIFIC ", .text 0 "COMPOSED ",
        .text 0 "UNHANDLED-TAG=10 :020105\n", .hint 0 [0x02, 0x01, 0x05]] ∧
    (Parse 1 [0x02, 0x01, 0x05]).1 =
      [.text 1 "UNIVERSAL ", .text 1 "PRIMITIVE ", .text 1 "INTEGER 5\n"] ∧
    OutEvent.text 1 "INTEGER 5\n" ∉ (Parse 0 [0xB0, 0x03, 0x02, 0x01, 0x05]).1 := by
  have hB : parseElement 0 [0xB0, 0x03, 0x02, 0x01, 0x05] =
      ([.text 0 "CONTEXT-SPECIFIC ", .text 0 "COMPOSED ",
        .text 0 "UNHANDLED-TAG=10 :020105\n", .hint 0 [0x02, 0x01, 0x05]], .ok []) := by
    rw [parseElement.eq_def]
    norm_num [decodeLength, interpretContent.eq_def, classLabel, pcLabel, handleData]
    decide
  have hP0 : Parse 0 [0xB0, 0x03, 0x02, 0x01, 0x05] =
      ([.text 0 "CONTEXT-SPECIFIC ", .text 0 "COMPOSED ",
        .text 0 "UNHANDLED-TAG=10 :020105\n", .hint 0 [0x02, 0x01, 0x05]], .ok ()) := by
    rw [Parse_ok hB, Parse_nil]
    simp
  have hP1 : Parse 1 [0x02, 0x01, 0x05] =
      ([.text 1 "UNIVERSAL ", .text 1 "PRIMITIVE ", .text 1 "INTEGER 5\n"], .ok ()) := by
    rw [Parse_ok parseElement_integer_example, Parse_nil]
    simp
  refine ⟨by rw [hP0], by rw [hP1], by rw [hP0]; decide⟩

/-- C2 amended: content interpretation dispatches on the full identifier
byte, class bits included: only the UNIVERSAL-class composed SEQUENCE and
SET bytes (0x30 and 0x31) recursively decode their content one indentation
level deeper (a panic inside the recursion propagates, a returned error is
discarded); under the APPLICATION, CONTEXT-SPECIFIC or PRIVATE classes the
same tag/constructed bits fall through to the generic
`UNHANDLED-TAG=<hex>` hex dump and no recursion happens. -/
theorem c2_amended_dispatch (depth : Nat) (content : List Nat)
    (hlen : content.length < 128) :
    (parseElement depth (0x30 :: content.length :: content) =
      ([.text depth "UNIVERSAL ", .text depth "COMPOSED ", .text depth "SEQUENCE\n"]
          ++ (Parse (depth + 1) content).1,
        if (Parse (depth + 1) content).2 = .panic then .panic else .ok [])) ∧
    (parseElement depth (0x31 :: content.length :: content) =
      ([.text depth "UNIVERSAL ", .text depth "COMPOSED ", .text depth "SET\n"]
          ++ (Parse (depth + 1) content).1,
        if (Parse (depth + 1) content).2 = .panic then .panic else .ok [])) ∧
    (∀ c : Nat, c = 1 ∨ c = 2 ∨ c = 3 →
      parseElement depth ((64 * c + 0x30) :: content.length :: content) =
        ([(if c = 1 then OutEvent.text depth "APPLICATION "
            else if c = 2 then OutEvent.text depth "CONTEXT-SPECIFIC "
            else OutEvent.text depth "PRIVATE "), .text depth "COMPOSED ",
          .text depth ("UNHANDLED-TAG=10 " ++ printOctets content ++ "\n"),
          .hint depth content], .ok [])) ∧
    (∀ c : Nat, c = 1 ∨ c = 2 ∨ c = 3 →
      parseElement depth ((64 * c + 0x31) :: content.length :: content) =
        ([(if c = 1 then OutEvent.text depth "APPLICATION "
            else if c = 2 then OutEvent.text depth "CONTEXT-SPECIFIC "
            else OutEvent.text depth "PRIVATE "), .text depth "COMPOSED ",
          .text depth ("UNHANDLED-TAG=11 " ++ printOctets content ++ "\n"),
          .hint depth content], .ok [])) := by
  have h128 : content.length / 128 % 2 = 0 := by omega
  have hb10 : "UNHANDLED-TAG=" ++ byteHexL 16 ++ " " = "UNHANDLED-TAG=10 " := by decide
  have hb11 : "UNHANDLED-TAG=" ++ byteHexL 17 ++ " " = "UNHANDLED-TAG=11 " := by decide
  refine ⟨?_, ?_, ?_, ?_⟩
  · rcases hpr : (Parse (depth + 1) content).2 with ⟨⟩ | e | _ <;>
      (rw [parseElement.eq_def]
       norm_num [decodeLength, interpretContent.eq_def, classLabel, pcLabel, h128,
         List.take_length, List.drop_length, hpr]
       split_ifs <;> first | rfl | omega | contradiction)
  · rcases hpr : (Parse (depth + 1) content).2 with ⟨⟩ | e | _ <;>
      (rw [parseElement.eq_def]
       norm_num [decodeLength, interpretContent.eq_def, classLabel, pcLabel, h128,
         List.take_length, List.drop_length, hpr]
       split_ifs <;> first | rfl | omega | contradiction)
  · rintro c (rfl | rfl | rfl) <;>
      (rw [parseElement.eq_def]
       norm_num [decodeLength, interpretContent.eq_def, classLabel, pcLabel, h128,
         List.take_length, List.drop_length, handleData, hb10]
       split_ifs <;> first | rfl | omega | contradiction)
  · rintro c (rfl | rfl | rfl) <;>
      (rw [parseElement.eq_def]
       norm_num [decodeLength, interpretContent.eq_def, classLabel, pcLabel, h128,
         List.take_length, List.drop_length, handleData, hb11]
       split_ifs <;> first | rfl | omega | contradiction)

theorem c2_amended_dispatch_witness :
    parseElement 0 [0x30, 0x03, 0x02, 0x01, 0x05] =
      ([.text 0 "UNIVERSAL ", .text 0 "COMPOSED ", .text 0 "SEQUENCE\n"]
          ++ (Parse 1 [0x02, 0x01, 0x05]).1,
        if (Parse 1 [0x02, 0x01, 0x05]).2 = .panic then .panic else .ok []) :=
  (c2_amended_dispatch 0 [0x02, 0x01, 0x05] (by decide)).1

/-- C1 (code bug): the buffer `30 01 00` is a COMPOSED SEQUENCE whose
one-byte content `00` is not a decodable TLV stream — parsing that content
directly fails with the short-read error — yet the top-level `Parse` of
the whole buffer succeeds, because `parseElement` discards the error
returned by the recursive `Parse` call for SEQUENCE/SET content. -/
theorem c1_nested_error_swallowed :
    Parse 1 [0x00] = ([], .err "short DER read, need at least two bytes, got 1") ∧
    Parse 0 [0x30, 0x01, 0x00] =
      ([.text 0 "UNIVERSAL ", .text 0 "COMPOSED ", .text 0 "SEQUENCE\n"], .ok ()) := by
  have h0 : parseElement 1 [0x00] =
      ([], .err "short DER read, need at least two bytes, got 1") := by
    rw [parseElement.eq_def]
    norm_num
    rfl
  have h1 : Parse 1 [0x00] =
      ([], .err "short DER read, need at least two bytes, got 1") :=
    Parse_err (by simp) h0
  have h2 : parseElement 0 [0x30, 0x01, 0x00] =
      ([.text 0 "UNIVERSAL ", .text 0 "COMPOSED ", .text 0 "SEQUENCE\n"], .ok []) := by
    rw [parseElement.eq_def]
    norm_num [decodeLength, interpretContent.eq_def, classLabel, pcLabel, h1]
  exact ⟨h1, by rw [Parse_ok h2, Parse_nil]; simp⟩

/-- C3 (code bug): the buffer `0D 01 80` is a RELATIVE OID whose single
content byte has the continuation (top) bit set, so the arc loop never
emits an arc and the built string stays empty; the source then slices
`oid[1:]` on the empty string, which is a Go runtime panic (slice bounds
out of range), not a returned error. -/
theorem c3_relative_oid_panic :
    Parse 0 [0x0D, 0x01, 0x80] =
      ([.text 0 "UNIVERSAL ", .text 0 "PRIMITIVE "], GoResult.panic) := by
  have h0 : parseElement 0 [0x0D, 0x01, 0x80] =
      ([.text 0 "UNIVERSAL ", .text 0 "PRIMITIVE "], GoResult.panic) := by
    rw [parseElement.eq_def]
    norm_num [decodeLength, interpretContent.eq_def, classLabel, pcLabel,
      oidFold, toInt64]
    decide
  exact Parse_panic (by simp) h0

/-- C4 (code bug): an INTEGER whose content is exactly 8 bytes with the
sign bit clear (here eight zero bytes) satisfies neither the decimal
condition (`len < 8` fails) nor the hex-dump condition (`len > 8`,
`len == 0` and sign-bit-set all fail), so `handleInteger` emits nothing at
all: the element renders as only the `UNIVERSAL PRIMITIVE ` prefix with no
value line, neither decimal nor hex. -/
theorem c4_integer_len8_gap :
    parseElement 0 [0x02, 0x08, 0, 0, 0, 0, 0, 0, 0, 0] =
      ([.text 0 "UNIVERSAL ", .text 0 "PRIMITIVE "], .ok []) ∧
    handleInteger "INTEGER" 0 [0, 0, 0, 0, 0, 0, 0, 0] = [] := by
  constructor
  · rw [parseElement.eq_def]
    norm_num [decodeLength, interpretContent.eq_def, classLabel, pcLabel,
      handleInteger]
    decide
  · decide

/-- C5 counterexample: the long-form length prefix `88 80 00 00 00 00 00
00 00 00` declares N = 8 length bytes whose big-endian unsigned value is
2^63, but `decodeLength` returns the wrapped 64-bit signed value -2^63, a
negative number, not that unsigned integer. -/
theorem c5_counterexample :
    decodeLength [0x88, 0x80, 0, 0, 0, 0, 0, 0, 0] = .ok (-(2 ^ 63), []) ∧
    bigEndianVal [0x80, 0, 0, 0, 0, 0, 0, 0] = 2 ^ 63 ∧
    (-(2 ^ 63) : Int) ≠ ((2 ^ 63 : Nat) : Int) :=
  ⟨by decide, by decide, by decide⟩

/-- C5 amended: a short-form prefix (first byte below 128) yields exactly
that value and consumes one byte; a long-form prefix with N = firstByte -
128 yields the big-endian value of the next N bytes reduced to a 64-bit
signed integer (`toInt64`) — exactly that value whenever it is below
2^63 — consuming 1+N bytes, and fails when fewer than N bytes follow;
N = 0 yields length 0. -/
theorem c5_decodeLength_spec (firstByte : Nat) (tail : List Nat)
    (hb : firstByte < 256) :
    (firstByte < 128 →
      decodeLength (firstByte :: tail) = .ok ((firstByte : Int), tail)) ∧
    (128 ≤ firstByte →
      (tail.length < firstByte - 128 →
        decodeLength (firstByte :: tail) =
          .err ("Cant satisfy request to read " ++ toString (firstByte - 128) ++
            " bytes to get length")) ∧
      (firstByte - 128 ≤ tail.length →
        decodeLength (firstByte :: tail) =
          .ok (toInt64 ((bigEndianVal (tail.take (firstByte - 128)) : Nat) : Int),
            tail.drop (firstByte - 128)) ∧
        (bigEndianVal (tail.take (firstByte - 128)) < 2 ^ 63 →
          toInt64 ((bigEndianVal (tail.take (firstByte - 128)) : Nat) : Int) =
            ((bigEndianVal (tail.take (firstByte - 128)) : Nat) : Int)))) := by
  constructor
  · intro h
    simp [decodeLength, show ¬firstByte / 128 % 2 = 1 by omega]
  · intro h
    have hbit : firstByte / 128 % 2 = 1 := by omega
    constructor
    · intro hlt
      simp [decodeLength, hbit, hlt]
    · intro hge
      constructor
      · simp only [decodeLength, hbit, if_true, reduceIte,
          show ¬tail.length < firstByte - 128 by omega, if_false]
        rw [lenAcc_eq _ (by decide)]
        rw [show (0 : Int) = ((0 : Nat) : Int) by simp, bigEndianVal_cast]
        rfl
      · intro hv
        refine toInt64_eq_self (by omega) (by exact_mod_cast hv)

theorem c5_decodeLength_spec_witness :
    decodeLength [0x05] = .ok ((0x05 : Int), []) ∧
    decodeLength [0x81, 0x07] = .ok ((7 : Int), []) ∧
    decodeLength [0x81] =
      .err ("Cant satisfy request to read " ++ toString 1 ++ " bytes to get length") ∧
    decodeLength [0x80] = .ok ((0 : Int), []) :=
  ⟨(c5_decodeLength_spec 0x05 [] (by decide)).1 (by decide),
    (((c5_decodeLength_spec 0x81 [0x07] (by decide)).2 (by decide)).2 (by decide)).1,
    ((c5_decodeLength_spec 0x81 [] (by decide)).2 (by decide)).1 (by decide),
    (((c5_decodeLength_spec 0x80 [] (by decide)).2 (by decide)).2 (by decide)).1⟩
